import Mathlib

/-!
Shallow embedding of the scratch-audio playback subsystem
(src/src/SoundPlayer.js: the SoundPlayer, DrumPlayer, AudioPlayer and
AudioEngine classes) together with spec-modelled stand-ins for the
modules the repository requires but does not ship under src/
(effects/PitchEffect, effects/PanEffect, InstrumentPlayer,
ADPCMSoundDecoder).

Mutable heap objects are modelled by explicit state passing: each
AudioPlayer (called ActorState here, one per sprite or clone) carries a
list of every SoundPlayer object it has created, indexed by position,
and its activeSoundPlayers dictionary maps a sound md5 to such an
index.  Web-audio buffer source nodes receive a fresh numeric id on
creation, supplied by a per-actor counter, so that "the same source
node, not a new one" is expressible.
-/

namespace ScratchAudio

/-! ### List helpers (association lists and positional update) -/

/-- Update the element at position i of a list, if present. -/
def updateAt {α : Type} : List α → Nat → (α → α) → List α
  | [], _, _ => []
  | x :: t, 0, f => f x :: t
  | x :: t, n + 1, f => x :: updateAt t n f

/-- Map a function receiving the element index, counting from n. -/
def mapFrom {α : Type} (f : Nat → α → α) : Nat → List α → List α
  | _, [] => []
  | n, x :: t => f n x :: mapFrom f (n + 1) t

/-- First value stored under a key in an association list
(a JavaScript object used as a dictionary). -/
def lookupKey {α : Type} : List (String × α) → String → Option α
  | [], _ => none
  | (k, v) :: t, key => if k = key then some v else lookupKey t key

/-- JavaScript dictionary assignment: overwrite the value under an
existing key in place, otherwise append the new entry. -/
def setKey {α : Type} (l : List (String × α)) (key : String) (v : α) :
    List (String × α) :=
  if l.any (fun kv => kv.1 = key) then
    l.map (fun kv => if kv.1 = key then (key, v) else kv)
  else l ++ [(key, v)]

/-! ### Buffers, rates and buffer source nodes -/

/-- A Tone.Buffer as far as this subsystem observes it: whether its
audio data has finished loading. -/
structure ToneBuffer where
  loaded : Bool
deriving DecidableEq

/-- A playback-rate multiplier.  Every rate arising in this subsystem
is either the default 1 or the pitch-derived 2 ^ (p / 120), so a rate
is represented exactly by its base-2 logarithm (a rational); the
noncomputable observation Rate.toReal below gives the multiplier it
denotes.  The representation is injective, so no two distinct
multipliers are conflated. -/
structure Rate where
  log2 : ℚ
deriving DecidableEq

/-- The default playback rate 1 (log2 = 0). -/
def Rate.one : Rate := ⟨0⟩

/-- The real playback-rate multiplier denoted by a Rate. -/
noncomputable def Rate.toReal (r : Rate) : ℝ := (2 : ℝ) ^ ((r.log2 : ℚ) : ℝ)

/-- An AudioBufferSourceNode created by SoundPlayer.start.  The web
audio framework requires a new source node for each playback; sourceId
is the identity of the node (fresh at each creation), so keeping the
same sourceId means the playback was not restarted. -/
structure BufferSource where
  sourceId : Nat
  buffer : ToneBuffer
  playbackRateValue : Rate
  outputNode : Option Nat
  stopped : Bool
deriving DecidableEq

/-! ### SoundPlayer (src/src/SoundPlayer.js, class SoundPlayer) -/

/-- A SoundPlayer stores an audio buffer and plays it. -/
structure SoundPlayer where
  outputNode : Option Nat
  buffer : Option ToneBuffer
  bufferSource : Option BufferSource
  playbackRate : Rate
  isPlaying : Bool
deriving DecidableEq

/-- The SoundPlayer constructor: no output node, a fresh (unloaded)
Tone.Buffer, no buffer source, rate 1, not playing. -/
def SoundPlayer.new : SoundPlayer :=
  { outputNode := none
    buffer := some ⟨false⟩
    bufferSource := none
    playbackRate := Rate.one
    isPlaying := false }

/-- connect(node): remember the output node to connect to. -/
def SoundPlayer.connect (p : SoundPlayer) (node : Nat) : SoundPlayer :=
  { p with outputNode := some node }

/-- setBuffer(buffer). -/
def SoundPlayer.setBuffer (p : SoundPlayer) (b : ToneBuffer) : SoundPlayer :=
  { p with buffer := some b }

/-- setPlaybackRate(playbackRate): store the rate and, if a buffer
source exists, retune it live. -/
def SoundPlayer.setPlaybackRate (p : SoundPlayer) (r : Rate) : SoundPlayer :=
  match p.bufferSource with
  | some src =>
      { p with playbackRate := r,
               bufferSource := some { src with playbackRateValue := r } }
  | none => { p with playbackRate := r }

/-- stop(): stop the buffer source if there is one, and clear the
playing flag. -/
def SoundPlayer.stop (p : SoundPlayer) : SoundPlayer :=
  match p.bufferSource with
  | some src =>
      { p with bufferSource := some { src with stopped := true },
               isPlaying := false }
  | none => { p with isPlaying := false }

/-- start(sid): if the buffer is missing or not loaded, log a warning
(the returned Bool) and do nothing.  Otherwise create a fresh buffer
source node with id sid bound to the buffer, the current rate and the
configured output node, start it, and set the playing flag. -/
def SoundPlayer.start (p : SoundPlayer) (sid : Nat) : SoundPlayer × Bool :=
  match p.buffer with
  | none => (p, true)
  | some b =>
      if b.loaded then
        ({ p with
             bufferSource := some
               { sourceId := sid
                 buffer := b
                 playbackRateValue := p.playbackRate
                 outputNode := p.outputNode
                 stopped := false }
             isPlaying := true }, false)
      else (p, true)

/-- The Promise returned by SoundPlayer.finished().  The executor runs
synchronously and assigns an onended handler on this.bufferSource; when
bufferSource is null (start never ran) that dereference throws a
TypeError inside the executor, which the Promise constructor converts
into a rejected promise. -/
inductive PlayPromise where
  | pending (sourceId : Nat)
  | rejected
deriving DecidableEq

/-- finished(): resolves when the buffer source ends; rejected when
there is no buffer source to attach the handler to. -/
def SoundPlayer.finished (p : SoundPlayer) : PlayPromise :=
  match p.bufferSource with
  | some src => .pending src.sourceId
  | none => .rejected

/-- Warning text logged by SoundPlayer.start. -/
def warnNotLoaded : String := "tried to play a sound that was not loaded yet"

/-- Warning text logged by AudioEngine.decodeSound on a bad format. -/
def warnUnknownFormat : String := "unknown sound format"

/-- Warning text logged by AudioEngine.decodeSound on a failed decode. -/
def warnDecodeFailed : String := "audio data could not be decoded"

/-! ### Spec-modelled effect and instrument modules -/

/-- Modelled from the spec: the effects/PitchEffect module required by
src/src/SoundPlayer.js is not under src/.  Spec section 4.3: pitch value p
is mapped to the playback-rate multiplier 2 ^ (p / 120); in the Rate
representation that multiplier is the rate with base-2 logarithm
p / 120. -/
def rateOfPitch (p : ℚ) : Rate := ⟨p / 120⟩

/-- Modelled from the spec (section 4.3, PitchEffect.updatePlayer):
apply the rate derived from the current pitch value to one player. -/
def pitchUpdatePlayer (value : ℚ) (pl : SoundPlayer) : SoundPlayer :=
  pl.setPlaybackRate (rateOfPitch value)

/-- Modelled from the spec: the InstrumentPlayer module is not under
src/.  It is the engine's shared instrument bank; its in-flight notes
are modelled as a list of playing flags (section 4.5, section 5). -/
structure InstrumentPlayer where
  notesPlaying : List Bool
deriving DecidableEq

/-- Modelled from the spec (section 5): stopAll on the shared
instrument bank halts every in-flight instrument note, whichever actor
started it. -/
def InstrumentPlayer.stopAll (ip : InstrumentPlayer) : InstrumentPlayer :=
  ⟨ip.notesPlaying.map (fun _ => false)⟩

/-! ### DrumPlayer (src/src/SoundPlayer.js, class DrumPlayer) -/

/-- The drum bank: a fixed list of SoundPlayers, one per drum sound,
shared by all actors through the engine. -/
structure DrumPlayer where
  drumSounds : List SoundPlayer
deriving DecidableEq

/-- play(drum, outputNode): point the drum sound at the calling actor's
output node and start it (sid is the fresh source node id). -/
def DrumPlayer.play (d : DrumPlayer) (drum : Nat) (node : Nat) (sid : Nat) :
    DrumPlayer :=
  ⟨updateAt d.drumSounds drum
    (fun pl => (({ pl with outputNode := some node }).start sid).1)⟩

/-- stopAll(): stop every drum sound. -/
def DrumPlayer.stopAll (d : DrumPlayer) : DrumPlayer :=
  ⟨d.drumSounds.map SoundPlayer.stop⟩

/-! ### AudioEngine (src/src/SoundPlayer.js, class AudioEngine) -/

/-- Global engine state: the tempo in beats per minute, the
audioBuffers dictionary mapping a sound md5 to its decoded buffer, and
the shared instrument and drum banks. -/
structure AudioEngine where
  currentTempo : ℚ
  audioBuffers : List (String × ToneBuffer)
  instrumentPlayer : InstrumentPlayer
  drumPlayer : DrumPlayer
deriving DecidableEq

/-- beatsToSec(beats): convert beats to seconds using the current
tempo. -/
def AudioEngine.beatsToSec (e : AudioEngine) (beats : ℚ) : ℚ :=
  60 / e.currentTempo * beats

/-- waitForBeats(beats), modelled as the delay in milliseconds handed
to setTimeout.  The executor of the returned Promise runs
synchronously, so this delay is computed from the tempo current when
waitForBeats is called and is fixed thereafter. -/
def AudioEngine.waitForBeats (e : AudioEngine) (beats : ℚ) : ℚ :=
  e.beatsToSec beats * 1000

/-- setTempo(value). -/
def AudioEngine.setTempo (e : AudioEngine) (value : ℚ) : AudioEngine :=
  { e with currentTempo := value }

/-- changeTempo(value): relative tempo change, delegates to
setTempo. -/
def AudioEngine.changeTempo (e : AudioEngine) (value : ℚ) : AudioEngine :=
  e.setTempo (e.currentTempo + value)

/-- Outcome of the external decode step of decodeSound.  The raw-format
path delegates to the platform decodeAudioData and the adpcm path to the
ADPCMSoundDecoder module (not under src/); both resolve with decoded
audio or reject, which this parameter abstracts. -/
inductive DecodeOutcome where
  | ok
  | err
deriving DecidableEq

/-- decodeSound(sound): switch on the format tag.  The cases for the
empty format and for adpcm both produce a loader promise whose success
handler stores a loaded Tone.Buffer under the sound md5 and whose
failure handler logs a warning without registering anything; any other
format logs a warning and returns at once.  The returned list is the
warnings logged. -/
def AudioEngine.decodeSound (e : AudioEngine) (format md5 : String)
    (outcome : DecodeOutcome) : AudioEngine × List String :=
  if format = "" ∨ format = "adpcm" then
    match outcome with
    | .ok => ({ e with audioBuffers := setKey e.audioBuffers md5 ⟨true⟩ }, [])
    | .err => (e, [warnDecodeFailed])
  else (e, [warnUnknownFormat])

/-! ### AudioPlayer (src/src/SoundPlayer.js, class AudioPlayer) -/

/-- Per-actor player state.  effectsNode is the id of the actor's gain
node; effectsGain its gain value; panValue and pitchValue are the
effect settings (the PanEffect and PitchEffect modules are not under
src/ and are modelled from the spec: pan is applied once at the shared
output node, pitch is the semantic value whose derived rate is pushed
to the players).  players is the heap of every SoundPlayer this actor
has created, and activeSoundPlayers maps a sound md5 to an index into
it.  nextSourceId supplies fresh buffer source node ids. -/
structure ActorState where
  effectsNode : Nat
  panValue : ℚ
  pitchValue : ℚ
  effectsGain : ℚ
  activeSoundPlayers : List (String × Nat)
  players : List SoundPlayer
  nextSourceId : Nat
deriving DecidableEq

/-- The AudioPlayer constructor: empty registry and heap, effects
cleared to their defaults (pan 0, pitch 0, gain 1). -/
def ActorState.init (node : Nat) : ActorState :=
  { effectsNode := node
    panValue := 0
    pitchValue := 0
    effectsGain := 1
    activeSoundPlayers := []
    players := []
    nextSourceId := 0 }

/-- Modelled from the spec (section 4.3, PitchEffect.set): store the
pitch value and immediately re-apply the derived rate to every player
in the activeSoundPlayers registry. -/
def ActorState.pitchSet (a : ActorState) (value : ℚ) : ActorState :=
  { a with
      pitchValue := value
      players := mapFrom
        (fun j pl =>
          if a.activeSoundPlayers.any (fun kv => kv.2 == j) then
            pitchUpdatePlayer value pl
          else pl) 0 a.players }

/-- setEffect(effect, value): dispatch on the effect name. -/
def ActorState.setEffect (a : ActorState) (effect : String) (value : ℚ) :
    ActorState :=
  if effect = "pitch" then a.pitchSet value
  else if effect = "pan" then { a with panValue := value }
  else a

/-- clearEffects(): reset pan to 0, pitch to 0 (re-applying the neutral
rate to active players), and the effects node gain to 1. -/
def ActorState.clearEffects (a : ActorState) : ActorState :=
  let a1 := { a with panValue := 0 }
  let a2 := a1.pitchSet 0
  { a2 with effectsGain := 1 }

/-- setVolume(value): set the effects node gain to value / 100. -/
def ActorState.setVolume (a : ActorState) (value : ℚ) : ActorState :=
  { a with effectsGain := value / 100 }

/-- The tail of playSound after the buffer check and the
stop-the-prior-instance step (source lines 215 to 234): create a new
SoundPlayer, set its buffer, connect it to the effects node, apply the
current pitch rate, start it (obtaining a fresh source node id);
register it under md5; delete every registry entry whose player is not
playing; return the new player's finished() promise and the warnings
logged. -/
def ActorState.playSoundTail (a1 : ActorState) (buf : ToneBuffer)
    (md5 : String) : ActorState × Option PlayPromise × List String :=
  let started :=
    ((pitchUpdatePlayer a1.pitchValue
        ((SoundPlayer.new.setBuffer buf).connect a1.effectsNode)).start
      a1.nextSourceId)
  let player := started.1
  let newIdx := a1.players.length
  let a2 := { a1 with
    players := a1.players ++ [player]
    nextSourceId := a1.nextSourceId + 1
    activeSoundPlayers := setKey a1.activeSoundPlayers md5 newIdx }
  let a3 := { a2 with
    activeSoundPlayers := a2.activeSoundPlayers.filter
      (fun kv => (a2.players.getD kv.2 SoundPlayer.new).isPlaying) }
  (a3, some player.finished, if started.2 then [warnNotLoaded] else [])

/-- playSound(md5).  Returns the updated actor state, the value the
call returns (none models the undefined of the early return, some p the
Promise from player.finished()), and the warnings logged.

Mirrors the source: return early when the engine has no buffer for
md5; stop the already-active player for md5 if there is one; then run
the creation, registration and garbage-collection tail. -/
def ActorState.playSound (eng : AudioEngine) (a : ActorState) (md5 : String) :
    ActorState × Option PlayPromise × List String :=
  match lookupKey eng.audioBuffers md5 with
  | none => (a, none, [])
  | some buf =>
      match lookupKey a.activeSoundPlayers md5 with
      | some j =>
          ActorState.playSoundTail
            { a with players := updateAt a.players j SoundPlayer.stop } buf md5
      | none => ActorState.playSoundTail a buf md5

/-- stopAllSounds(): stop every player registered in
activeSoundPlayers, then stopAll on the engine's shared instrument bank
and drum bank. -/
def ActorState.stopAllSounds (eng : AudioEngine) (a : ActorState) :
    AudioEngine × ActorState :=
  let a1 := { a with
    players := mapFrom
      (fun j pl =>
        if a.activeSoundPlayers.any (fun kv => kv.2 == j) then pl.stop
        else pl) 0 a.players }
  let eng1 := { eng with instrumentPlayer := eng.instrumentPlayer.stopAll }
  let eng2 := { eng1 with drumPlayer := eng1.drumPlayer.stopAll }
  (eng2, a1)

/-- playDrumForBeats(drum, beats): play the drum through this actor's
effects node and return the waitForBeats delay. -/
def ActorState.playDrumForBeats (eng : AudioEngine) (a : ActorState)
    (drum : Nat) (beats : ℚ) : AudioEngine × ActorState × ℚ :=
  let eng1 := { eng with
    drumPlayer := eng.drumPlayer.play drum a.effectsNode a.nextSourceId }
  (eng1, { a with nextSourceId := a.nextSourceId + 1 },
    eng1.waitForBeats beats)

/-! ### Platform timer queue (for the tempo/wait claims) -/

/-- The engine together with the platform timer queue: each pending
wait records the fixed delay in milliseconds that waitForBeats handed
to setTimeout when it was created. -/
structure SchedulerState where
  engine : AudioEngine
  pendingDelays : List ℚ
deriving DecidableEq

/-- A waitForBeats call: append a timer whose delay is computed from
the tempo current now. -/
def SchedulerState.waitStep (s : SchedulerState) (beats : ℚ) : SchedulerState :=
  { s with pendingDelays := s.pendingDelays ++ [s.engine.waitForBeats beats] }

/-- A setTempo call: changes the engine only, never the pending
timers. -/
def SchedulerState.setTempoStep (s : SchedulerState) (v : ℚ) : SchedulerState :=
  { s with engine := s.engine.setTempo v }

/-- A changeTempo call: changes the engine only, never the pending
timers. -/
def SchedulerState.changeTempoStep (s : SchedulerState) (v : ℚ) :
    SchedulerState :=
  { s with engine := s.engine.changeTempo v }

/-! ### Concrete states used to instantiate the theorems -/

/-- Engine with one loaded buffer under key sX. -/
def engFix1 : AudioEngine :=
  { currentTempo := 60
    audioBuffers := [("sX", ⟨true⟩)]
    instrumentPlayer := ⟨[]⟩
    drumPlayer := ⟨[]⟩ }

/-- A player currently playing sound sX through node 7. -/
def actFix1 : ActorState :=
  { effectsNode := 7
    panValue := 0
    pitchValue := 0
    effectsGain := 1
    activeSoundPlayers := [("sX", 0)]
    players := [{ outputNode := some 7
                  buffer := some ⟨true⟩
                  bufferSource := some
                    { sourceId := 0
                      buffer := ⟨true⟩
                      playbackRateValue := Rate.one
                      outputNode := some 7
                      stopped := false }
                  playbackRate := Rate.one
                  isPlaying := true }]
    nextSourceId := 1 }

/-- Engine with a registered but not yet loaded buffer under sY. -/
def engFix2 : AudioEngine :=
  { currentTempo := 60
    audioBuffers := [("sY", ⟨false⟩)]
    instrumentPlayer := ⟨[]⟩
    drumPlayer := ⟨[]⟩ }

/-- A fresh actor. -/
def actFix2 : ActorState := ActorState.init 1

/-- A player currently playing sound s3 through node 8. -/
def actFix3 : ActorState :=
  { effectsNode := 8
    panValue := 0
    pitchValue := 0
    effectsGain := 1
    activeSoundPlayers := [("s3", 0)]
    players := [{ outputNode := some 8
                  buffer := some ⟨true⟩
                  bufferSource := some
                    { sourceId := 0
                      buffer := ⟨true⟩
                      playbackRateValue := Rate.one
                      outputNode := some 8
                      stopped := false }
                  playbackRate := Rate.one
                  isPlaying := true }]
    nextSourceId := 1 }

/-- Engine at the default tempo of 60 bpm. -/
def engFix4 : AudioEngine :=
  { currentTempo := 60
    audioBuffers := []
    instrumentPlayer := ⟨[]⟩
    drumPlayer := ⟨[]⟩ }

/-- Engine with no buffers registered. -/
def engFix6 : AudioEngine :=
  { currentTempo := 60
    audioBuffers := []
    instrumentPlayer := ⟨[]⟩
    drumPlayer := ⟨[]⟩ }

/-- A fresh actor. -/
def actFix6 : ActorState := ActorState.init 2

/-- Engine with no buffers registered. -/
def engFix7 : AudioEngine :=
  { currentTempo := 60
    audioBuffers := []
    instrumentPlayer := ⟨[]⟩
    drumPlayer := ⟨[]⟩ }

/-- A fresh actor. -/
def actFix7 : ActorState := ActorState.init 3

/-- Engine where another actor has an in-flight drum sound (started
through that actor's node 9) and an in-flight instrument note. -/
def engFix8 : AudioEngine :=
  { currentTempo := 60
    audioBuffers := []
    instrumentPlayer := ⟨[true]⟩
    drumPlayer := ⟨[{ outputNode := some 9
                      buffer := some ⟨true⟩
                      bufferSource := some
                        { sourceId := 5
                          buffer := ⟨true⟩
                          playbackRateValue := Rate.one
                          outputNode := some 9
                          stopped := false }
                      playbackRate := Rate.one
                      isPlaying := true }]⟩ }

/-- A player currently playing sound s8 through node 4. -/
def actFix8 : ActorState :=
  { effectsNode := 4
    panValue := 0
    pitchValue := 0
    effectsGain := 1
    activeSoundPlayers := [("s8", 0)]
    players := [{ outputNode := some 4
                  buffer := some ⟨true⟩
                  bufferSource := some
                    { sourceId := 0
                      buffer := ⟨true⟩
                      playbackRateValue := Rate.one
                      outputNode := some 4
                      stopped := false }
                  playbackRate := Rate.one
                  isPlaying := true }]
    nextSourceId := 1 }

/-- Engine with a registered but not yet loaded buffer under sU. -/
def engFix9 : AudioEngine :=
  { currentTempo := 60
    audioBuffers := [("sU", ⟨false⟩)]
    instrumentPlayer := ⟨[]⟩
    drumPlayer := ⟨[]⟩ }

/-- A fresh actor. -/
def actFix9 : ActorState := ActorState.init 5

/-- Engine with one loaded buffer under sX, for the registry
counterexample trace. -/
def engFix9c : AudioEngine :=
  { currentTempo := 60
    audioBuffers := [("sX", ⟨true⟩)]
    instrumentPlayer := ⟨[]⟩
    drumPlayer := ⟨[]⟩ }

/-- Trace step 1: a fresh actor plays sX (now active and playing). -/
def actFix9a : ActorState :=
  (ActorState.playSound engFix9c (ActorState.init 1) "sX").1

/-- Trace step 2: stopAllSounds stops the player but leaves its
registry entry in place. -/
def actFix9b : ActorState :=
  (ActorState.stopAllSounds engFix9c actFix9a).2

/-- Trace step 3: playSound for an unregistered id returns early,
skipping the garbage-collection pass. -/
def actFix9c : ActorState :=
  (ActorState.playSound engFix9c actFix9b "missing").1

/-! ### Helper lemmas about the list operations -/

theorem length_updateAt {α : Type} (l : List α) (i : Nat) (f : α → α) :
    (updateAt l i f).length = l.length := by
  induction l generalizing i with
  | nil => rfl
  | cons x t ih =>
    cases i with
    | zero => rfl
    | succ n => simp [updateAt, ih]

theorem getD_updateAt_self {α : Type} (l : List α) (i : Nat) (f : α → α)
    (d : α) (h : i < l.length) :
    (updateAt l i f).getD i d = f (l.getD i d) := by
  induction l generalizing i with
  | nil => simp at h
  | cons x t ih =>
    cases i with
    | zero => rfl
    | succ n => simpa [updateAt] using ih n (by simpa using h)

theorem length_mapFrom {α : Type} (f : Nat → α → α) (n : Nat) (l : List α) :
    (mapFrom f n l).length = l.length := by
  induction l generalizing n with
  | nil => rfl
  | cons x t ih => simp [mapFrom, ih]

theorem getD_mapFrom {α : Type} (f : Nat → α → α) (n : Nat) (l : List α)
    (i : Nat) (d : α) (h : i < l.length) :
    (mapFrom f n l).getD i d = f (n + i) (l.getD i d) := by
  induction l generalizing n i with
  | nil => simp at h
  | cons x t ih =>
    cases i with
    | zero => simp [mapFrom]
    | succ m =>
      have h2 : m < t.length := by simpa using h
      have heq : n + 1 + m = n + (m + 1) := by omega
      have hih := ih (n + 1) m h2
      simp only [mapFrom, List.getD_cons_succ] at hih ⊢
      rw [hih, heq]

theorem getD_append_lt {α : Type} (l m : List α) (i : Nat) (d : α)
    (h : i < l.length) :
    (l ++ m).getD i d = l.getD i d := by
  induction l generalizing i with
  | nil => simp at h
  | cons x t ih =>
    cases i with
    | zero => rfl
    | succ n => simpa using ih n (by simpa using h)

theorem getD_append_length {α : Type} (l : List α) (x : α) (d : α) :
    (l ++ [x]).getD l.length d = x := by
  induction l with
  | nil => rfl
  | cons y t ih => simp [ih]

theorem getD_of_length_le {α : Type} (l : List α) (i : Nat) (d : α)
    (h : l.length ≤ i) :
    l.getD i d = d := by
  induction l generalizing i with
  | nil => simp
  | cons x t ih =>
    cases i with
    | zero => simp at h
    | succ n => simpa using ih n (by simpa using h)

theorem lookupKey_mem {α : Type} (l : List (String × α)) (k : String) (v : α)
    (h : lookupKey l k = some v) : (k, v) ∈ l := by
  induction l with
  | nil => simp [lookupKey] at h
  | cons kv t ih =>
    obtain ⟨k1, v1⟩ := kv
    by_cases hk : k1 = k
    · subst hk
      simp [lookupKey] at h
      simp [h]
    · simp [lookupKey, hk] at h
      exact List.mem_cons_of_mem _ (ih h)

theorem mem_setKey_self {α : Type} (l : List (String × α)) (k : String)
    (v : α) : (k, v) ∈ setKey l k v := by
  unfold setKey
  by_cases hany : l.any (fun kv => kv.1 = k) = true
  · rw [if_pos hany]
    obtain ⟨kv, hmem, hkv⟩ := List.any_eq_true.mp hany
    have hk : kv.1 = k := of_decide_eq_true hkv
    exact List.mem_map.mpr ⟨kv, hmem, by simp [hk]⟩
  · rw [if_neg hany]
    exact List.mem_append_right _ (by simp)

theorem setKey_key_eq {α : Type} (l : List (String × α)) (k : String) (v : α) :
    ∀ kv ∈ setKey l k v, kv.1 = k → kv = (k, v) := by
  intro kv hmem hkey
  unfold setKey at hmem
  by_cases hany : l.any (fun x => x.1 = k) = true
  · rw [if_pos hany] at hmem
    obtain ⟨x, hx, hmap⟩ := List.mem_map.mp hmem
    by_cases hxk : x.1 = k
    · rw [if_pos hxk] at hmap
      exact hmap.symm
    · rw [if_neg hxk] at hmap
      subst hmap
      exact absurd hkey hxk
  · rw [if_neg hany] at hmem
    rcases List.mem_append.mp hmem with h | h
    · exact absurd (List.any_eq_true.mpr ⟨kv, h, by simp [hkey]⟩) hany
    · simpa using h

theorem lookupKey_filter_eq_none {α : Type} (m : List (String × α))
    (k : String) (v : α) (p : String × α → Bool)
    (hall : ∀ kv ∈ m, kv.1 = k → kv = (k, v)) (hp : p (k, v) = false) :
    lookupKey (m.filter p) k = none := by
  induction m with
  | nil => rfl
  | cons kv t ih =>
    have hall2 : ∀ x ∈ t, x.1 = k → x = (k, v) := fun x hx =>
      hall x (List.mem_cons_of_mem _ hx)
    obtain ⟨k1, v1⟩ := kv
    by_cases hk : k1 = k
    · have : (k1, v1) = (k, v) := hall (k1, v1) (List.mem_cons_self _ _) hk
      rw [this, List.filter_cons, hp]
      simpa using ih hall2
    · rw [List.filter_cons]
      by_cases hpkv : p (k1, v1) = true
      · simp only [hpkv, if_true, lookupKey, hk, if_false]
        exact ih hall2
      · simp only [Bool.not_eq_true] at hpkv
        simp only [hpkv, Bool.false_eq_true, if_false]
        exact ih hall2

theorem lookupKey_filter_eq_some {α : Type} (m : List (String × α))
    (k : String) (v : α) (p : String × α → Bool)
    (hall : ∀ kv ∈ m, kv.1 = k → kv = (k, v)) (hmem : (k, v) ∈ m)
    (hp : p (k, v) = true) :
    lookupKey (m.filter p) k = some v := by
  induction m with
  | nil => simp at hmem
  | cons kv t ih =>
    have hall2 : ∀ x ∈ t, x.1 = k → x = (k, v) := fun x hx =>
      hall x (List.mem_cons_of_mem _ hx)
    obtain ⟨k1, v1⟩ := kv
    by_cases hk : k1 = k
    · have : (k1, v1) = (k, v) := hall (k1, v1) (List.mem_cons_self _ _) hk
      rw [this, List.filter_cons, hp]
      simp [lookupKey]
    · have hmem2 : (k, v) ∈ t := by
        rcases List.mem_cons.mp hmem with h | h
        · exact absurd (congrArg Prod.fst h.symm) hk
        · exact h
      rw [List.filter_cons]
      by_cases hpkv : p (k1, v1) = true
      · simp only [hpkv, if_true, lookupKey, hk, if_false]
        exact ih hall2 hmem2
      · simp only [Bool.not_eq_true] at hpkv
        simp only [hpkv, Bool.false_eq_true, if_false]
        exact ih hall2 hmem2

theorem any_of_lookupKey (l : List (String × Nat)) (k : String) (j : Nat)
    (h : lookupKey l k = some j) : l.any (fun kv => kv.2 == j) = true :=
  List.any_eq_true.mpr ⟨(k, j), lookupKey_mem l k j h, by simp⟩

/-! ### Helper lemmas about the model operations -/

theorem stop_isPlaying (p : SoundPlayer) : p.stop.isPlaying = false := by
  cases h : p.bufferSource <;> simp [SoundPlayer.stop, h]

theorem playSound_missing (eng : AudioEngine) (a : ActorState) (md5 : String)
    (h : lookupKey eng.audioBuffers md5 = none) :
    ActorState.playSound eng a md5 = (a, none, []) := by
  unfold ActorState.playSound
  rw [h]

theorem playSound_some_active (eng : AudioEngine) (a : ActorState)
    (md5 : String) (buf : ToneBuffer) (j : Nat)
    (hbuf : lookupKey eng.audioBuffers md5 = some buf)
    (hact : lookupKey a.activeSoundPlayers md5 = some j) :
    ActorState.playSound eng a md5 =
      ActorState.playSoundTail
        { a with players := updateAt a.players j SoundPlayer.stop } buf md5 := by
  unfold ActorState.playSound
  rw [hbuf, hact]

theorem playSound_none_active (eng : AudioEngine) (a : ActorState)
    (md5 : String) (buf : ToneBuffer)
    (hbuf : lookupKey eng.audioBuffers md5 = some buf)
    (hact : lookupKey a.activeSoundPlayers md5 = none) :
    ActorState.playSound eng a md5 = ActorState.playSoundTail a buf md5 := by
  unfold ActorState.playSound
  rw [hbuf, hact]

theorem playSoundTail_players (a1 : ActorState) (buf : ToneBuffer)
    (md5 : String) :
    (ActorState.playSoundTail a1 buf md5).1.players =
      a1.players ++
        [((pitchUpdatePlayer a1.pitchValue
            ((SoundPlayer.new.setBuffer buf).connect a1.effectsNode)).start
          a1.nextSourceId).1] := rfl

theorem playSoundTail_active (a1 : ActorState) (buf : ToneBuffer)
    (md5 : String) :
    (ActorState.playSoundTail a1 buf md5).1.activeSoundPlayers =
      (setKey a1.activeSoundPlayers md5 a1.players.length).filter
        (fun kv =>
          ((a1.players ++
              [((pitchUpdatePlayer a1.pitchValue
                  ((SoundPlayer.new.setBuffer buf).connect
                    a1.effectsNode)).start a1.nextSourceId).1]).getD kv.2
            SoundPlayer.new).isPlaying) := rfl

theorem playSoundTail_promise (a1 : ActorState) (buf : ToneBuffer)
    (md5 : String) :
    (ActorState.playSoundTail a1 buf md5).2.1 =
      some ((pitchUpdatePlayer a1.pitchValue
          ((SoundPlayer.new.setBuffer buf).connect a1.effectsNode)).start
        a1.nextSourceId).1.finished := rfl

theorem fresh_started_loaded (q : ℚ) (n sid : Nat) (buf : ToneBuffer)
    (h : buf.loaded = true) :
    (pitchUpdatePlayer q ((SoundPlayer.new.setBuffer buf).connect n)).start
        sid =
      ({ outputNode := some n
         buffer := some buf
         bufferSource := some
           { sourceId := sid
             buffer := buf
             playbackRateValue := rateOfPitch q
             outputNode := some n
             stopped := false }
         playbackRate := rateOfPitch q
         isPlaying := true }, false) := by
  simp [pitchUpdatePlayer, SoundPlayer.setPlaybackRate, SoundPlayer.connect,
    SoundPlayer.setBuffer, SoundPlayer.new, SoundPlayer.start, h]

theorem fresh_started_unloaded (q : ℚ) (n sid : Nat) (buf : ToneBuffer)
    (h : buf.loaded = false) :
    (pitchUpdatePlayer q ((SoundPlayer.new.setBuffer buf).connect n)).start
        sid =
      ({ outputNode := some n
         buffer := some buf
         bufferSource := none
         playbackRate := rateOfPitch q
         isPlaying := false }, true) := by
  simp [pitchUpdatePlayer, SoundPlayer.setPlaybackRate, SoundPlayer.connect,
    SoundPlayer.setBuffer, SoundPlayer.new, SoundPlayer.start, h]

theorem playSoundTail_registry_playing (a1 : ActorState) (buf : ToneBuffer)
    (md5 : String) :
    ∀ kv ∈ (ActorState.playSoundTail a1 buf md5).1.activeSoundPlayers,
      ((ActorState.playSoundTail a1 buf md5).1.players.getD kv.2
          SoundPlayer.new).isPlaying = true := by
  intro kv hkv
  rw [playSoundTail_active] at hkv
  rw [playSoundTail_players]
  exact (List.mem_filter.mp hkv).2

theorem playSoundTail_unloaded (a1 : ActorState) (buf : ToneBuffer)
    (md5 : String) (h : buf.loaded = false) :
    (ActorState.playSoundTail a1 buf md5).1.players.length =
      a1.players.length + 1 ∧
    ((ActorState.playSoundTail a1 buf md5).1.players.getD a1.players.length
        SoundPlayer.new).isPlaying = false ∧
    lookupKey (ActorState.playSoundTail a1 buf md5).1.activeSoundPlayers md5 =
      none := by
  refine ⟨?_, ?_, ?_⟩
  · rw [playSoundTail_players]
    simp
  · rw [playSoundTail_players, getD_append_length,
      fresh_started_unloaded _ _ _ _ h]
  · rw [playSoundTail_active]
    apply lookupKey_filter_eq_none _ md5 a1.players.length
    · exact setKey_key_eq _ _ _
    · rw [getD_append_length, fresh_started_unloaded _ _ _ _ h]

theorem setPlaybackRate_fields (pl : SoundPlayer) (r : Rate) :
    (pl.setPlaybackRate r).playbackRate = r ∧
    (pl.setPlaybackRate r).bufferSource =
      pl.bufferSource.map (fun s => { s with playbackRateValue := r }) ∧
    (pl.setPlaybackRate r).isPlaying = pl.isPlaying := by
  cases h : pl.bufferSource <;> simp [SoundPlayer.setPlaybackRate, h]

theorem playSoundTail_loaded (a1 : ActorState) (buf : ToneBuffer)
    (md5 : String) (h : buf.loaded = true) :
    ((ActorState.playSoundTail a1 buf md5).1.players.getD a1.players.length
        SoundPlayer.new).isPlaying = true ∧
    lookupKey (ActorState.playSoundTail a1 buf md5).1.activeSoundPlayers md5 =
      some a1.players.length := by
  constructor
  · rw [playSoundTail_players, getD_append_length,
      fresh_started_loaded _ _ _ _ h]
  · rw [playSoundTail_active]
    apply lookupKey_filter_eq_some _ md5 a1.players.length _
      (setKey_key_eq _ _ _) (mem_setKey_self _ _ _)
    simp only []
    rw [getD_append_length, fresh_started_loaded _ _ _ _ h]

/-! ### The claims -/

/-- C1: at most one instance of a sound is in playing state per actor:
when playSound(md5) runs while an instance for md5 is registered as
active at heap index j, the prior instance is stopped (its final state
is the stopped version of its old state, with isPlaying = false), one
new instance is created, and when the buffer is loaded the new instance
alone is playing and the registry maps md5 to it. -/
theorem playSound_stops_prior_instance (eng : AudioEngine) (a : ActorState)
    (md5 : String) (buf : ToneBuffer) (j : Nat)
    (hbuf : lookupKey eng.audioBuffers md5 = some buf)
    (hact : lookupKey a.activeSoundPlayers md5 = some j)
    (hj : j < a.players.length) :
    (ActorState.playSound eng a md5).1.players.getD j SoundPlayer.new =
      (a.players.getD j SoundPlayer.new).stop ∧
    ((ActorState.playSound eng a md5).1.players.getD j
        SoundPlayer.new).isPlaying = false ∧
    (ActorState.playSound eng a md5).1.players.length =
      a.players.length + 1 ∧
    (buf.loaded = true →
      ((ActorState.playSound eng a md5).1.players.getD a.players.length
          SoundPlayer.new).isPlaying = true ∧
      lookupKey (ActorState.playSound eng a md5).1.activeSoundPlayers md5 =
        some a.players.length) := by
  rw [playSound_some_active eng a md5 buf j hbuf hact]
  have hlen :
      ({ a with players := updateAt a.players j SoundPlayer.stop } :
        ActorState).players.length = a.players.length := length_updateAt _ _ _
  have hstopped :
      (ActorState.playSoundTail
          { a with players := updateAt a.players j SoundPlayer.stop } buf
          md5).1.players.getD j SoundPlayer.new =
        (a.players.getD j SoundPlayer.new).stop := by
    rw [playSoundTail_players, getD_append_lt _ _ _ _ (by rw [hlen]; exact hj)]
    exact getD_updateAt_self _ _ _ _ hj
  refine ⟨hstopped, ?_, ?_, ?_⟩
  · rw [hstopped]
    exact stop_isPlaying _
  · rw [playSoundTail_players]
    simp [length_updateAt]
  · intro hloaded
    have hload := playSoundTail_loaded
      { a with players := updateAt a.players j SoundPlayer.stop } buf md5
      hloaded
    rw [hlen] at hload
    exact hload

/-- Witness for playSound_stops_prior_instance: a concrete actor with a
playing instance of sX replays sX; the old instance at index 0 ends up
stopped, the new one at index 1 is playing and registered. -/
theorem playSound_stops_prior_instance_check :
    lookupKey engFix1.audioBuffers "sX" = some (⟨true⟩ : ToneBuffer) ∧
    lookupKey actFix1.activeSoundPlayers "sX" = some 0 ∧
    0 < actFix1.players.length ∧
    ((ActorState.playSound engFix1 actFix1 "sX").1.players.getD 0
        SoundPlayer.new).isPlaying = false ∧
    ((ActorState.playSound engFix1 actFix1 "sX").1.players.getD
        actFix1.players.length SoundPlayer.new).isPlaying = true ∧
    lookupKey (ActorState.playSound engFix1 actFix1 "sX").1.activeSoundPlayers
        "sX" = some actFix1.players.length :=
  ⟨rfl, rfl, by decide,
    (playSound_stops_prior_instance engFix1 actFix1 "sX" ⟨true⟩ 0 rfl rfl
      (by decide)).2.1,
    ((playSound_stops_prior_instance engFix1 actFix1 "sX" ⟨true⟩ 0 rfl rfl
      (by decide)).2.2.2 rfl).1,
    ((playSound_stops_prior_instance engFix1 actFix1 "sX" ⟨true⟩ 0 rfl rfl
      (by decide)).2.2.2 rfl).2⟩

/-- C2 (code bug): with a buffer registered for sY but not yet loaded,
start() logs its warning and is a no-op (the created player is not
playing and the garbage-collection pass removes its registration), and
playSound completes without throwing synchronously; but the value it
returns is a rejected promise, because finished() assigns the onended
handler on the null bufferSource and the TypeError thrown inside the
executor rejects the promise — so the failure does reach a caller
awaiting the returned notification instead of degrading silently. -/
theorem playSound_unloaded_rejected_promise :
    (ActorState.playSound engFix2 actFix2 "sY").2.1 =
      some PlayPromise.rejected ∧
    (ActorState.playSound engFix2 actFix2 "sY").2.2 = [warnNotLoaded] ∧
    (ActorState.playSound engFix2 actFix2 "sY").1.activeSoundPlayers = [] ∧
    (ActorState.playSound engFix2 actFix2 "sY").1.players.length = 1 ∧
    ((ActorState.playSound engFix2 actFix2 "sY").1.players.getD 0
        SoundPlayer.new).isPlaying = false := by
  decide

/-- C3: setting the pitch effect to p stores p, maps it to the
playback-rate multiplier 2 ^ (p / 120) (so p = 120 yields exactly 2),
and immediately re-applies the derived rate to the registered active
player: its stored rate and the rate value of its existing buffer
source change, while the buffer source itself (same sourceId — not
restarted) and the playing flag are preserved. -/
theorem setEffect_pitch_retunes_active (a : ActorState) (p : ℚ)
    (md5 : String) (j : Nat)
    (hact : lookupKey a.activeSoundPlayers md5 = some j)
    (hj : j < a.players.length) :
    (a.setEffect "pitch" p).pitchValue = p ∧
    ((a.setEffect "pitch" p).players.getD j SoundPlayer.new).playbackRate =
      rateOfPitch p ∧
    ((a.setEffect "pitch" p).players.getD j SoundPlayer.new).bufferSource =
      ((a.players.getD j SoundPlayer.new).bufferSource.map
        (fun s => { s with playbackRateValue := rateOfPitch p })) ∧
    ((a.setEffect "pitch" p).players.getD j SoundPlayer.new).isPlaying =
      (a.players.getD j SoundPlayer.new).isPlaying ∧
    (rateOfPitch p).toReal = (2 : ℝ) ^ ((p : ℝ) / 120) ∧
    (rateOfPitch 120).toReal = 2 := by
  have hset : a.setEffect "pitch" p = a.pitchSet p := by
    unfold ActorState.setEffect
    rw [if_pos rfl]
  have hany : a.activeSoundPlayers.any (fun kv => kv.2 == j) = true :=
    any_of_lookupKey _ _ _ hact
  have hget : (a.pitchSet p).players.getD j SoundPlayer.new =
      pitchUpdatePlayer p (a.players.getD j SoundPlayer.new) := by
    simp only [ActorState.pitchSet]
    rw [getD_mapFrom _ _ _ _ _ hj]
    simp [hany]
  have hfields := setPlaybackRate_fields (a.players.getD j SoundPlayer.new)
    (rateOfPitch p)
  refine ⟨by rw [hset]; rfl, ?_, ?_, ?_, ?_, ?_⟩
  · rw [hset, hget]
    exact hfields.1
  · rw [hset, hget]
    exact hfields.2.1
  · rw [hset, hget]
    exact hfields.2.2
  · unfold Rate.toReal rateOfPitch
    congr 1
    push_cast
    ring
  · unfold Rate.toReal rateOfPitch
    have h1 : ((120 : ℚ) / 120) = (1 : ℚ) := by norm_num
    rw [h1, Rat.cast_one, Real.rpow_one]

/-- Witness for setEffect_pitch_retunes_active: the concrete actor
playing s3 has its active player retuned to rate 2 by pitch 120. -/
theorem setEffect_pitch_retunes_active_check :
    lookupKey actFix3.activeSoundPlayers "s3" = some 0 ∧
    0 < actFix3.players.length ∧
    ((actFix3.setEffect "pitch" 120).players.getD 0
        SoundPlayer.new).playbackRate = rateOfPitch 120 ∧
    (rateOfPitch 120).toReal = 2 :=
  ⟨rfl, by decide,
    (setEffect_pitch_retunes_active actFix3 120 "s3" 0 rfl (by decide)).2.1,
    (setEffect_pitch_retunes_active actFix3 120 "s3" 0 rfl
      (by decide)).2.2.2.2.2⟩

/-- C4: for every tempo > 0 and beats ≥ 0, beatsToSec(beats) returns
exactly (60 / tempo) * beats, with tempo the engine's current
beats-per-minute value at the time of the call. -/
theorem beatsToSec_formula (e : AudioEngine) (beats : ℚ)
    (ht : 0 < e.currentTempo) (hb : 0 ≤ beats) :
    e.beatsToSec beats = 60 / e.currentTempo * beats := rfl

/-- Witness for beatsToSec_formula at tempo 60 and 2 beats. -/
theorem beatsToSec_formula_check :
    0 < engFix4.currentTempo ∧ 0 ≤ (2 : ℚ) ∧
    engFix4.beatsToSec 2 = 60 / engFix4.currentTempo * 2 :=
  ⟨by decide, by decide, beatsToSec_formula engFix4 2 (by decide) (by decide)⟩

/-- C5: a waitForBeats wait is fixed from the tempo current at the
moment of the call: after waitForBeats(b), a setTempo(v) or
changeTempo(d) issued while the wait is outstanding leaves the pending
delay computed from the old tempo, and only the wait started afterwards
uses the new tempo. -/
theorem tempo_change_preserves_inflight_wait (s : SchedulerState)
    (b v d b2 : ℚ) :
    (((s.waitStep b).setTempoStep v).waitStep b2).pendingDelays =
      s.pendingDelays ++
        [60 / s.engine.currentTempo * b * 1000, 60 / v * b2 * 1000] ∧
    (((s.waitStep b).changeTempoStep d).waitStep b2).pendingDelays =
      s.pendingDelays ++
        [60 / s.engine.currentTempo * b * 1000,
          60 / (s.engine.currentTempo + d) * b2 * 1000] := by
  constructor <;>
    simp [SchedulerState.waitStep, SchedulerState.setTempoStep,
      SchedulerState.changeTempoStep, AudioEngine.waitForBeats,
      AudioEngine.beatsToSec, AudioEngine.setTempo, AudioEngine.changeTempo]

/-- C6: playSound for a sound identity with no registered buffer
returns no playback handle, creates no SoundInstance and registers
nothing in the active registry: the actor state comes back unchanged,
the returned value is the undefined of the early return, and no warning
is logged. -/
theorem playSound_unknown_sound (eng : AudioEngine) (a : ActorState)
    (md5 : String) (h : lookupKey eng.audioBuffers md5 = none) :
    ActorState.playSound eng a md5 = (a, none, []) :=
  playSound_missing eng a md5 h

/-- Witness for playSound_unknown_sound on an engine with no buffers. -/
theorem playSound_unknown_sound_check :
    lookupKey engFix6.audioBuffers "sZ" = none ∧
    ActorState.playSound engFix6 actFix6 "sZ" = (actFix6, none, []) :=
  ⟨rfl, playSound_unknown_sound engFix6 actFix6 "sZ" rfl⟩

/-- C7: decodeSound on a format that is neither the empty string nor
adpcm logs a warning and returns with the engine unchanged (no buffer
registered); and when the decode of a well-formed format fails, the
engine is unchanged and a warning logged, so for an identity that had
no cache entry the entry is still absent and a later playSound behaves
exactly as the unknown-sound case. -/
theorem decodeSound_failure_paths (e : AudioEngine) (fmt md5 : String)
    (o : DecodeOutcome) (a : ActorState) :
    (fmt ≠ "" → fmt ≠ "adpcm" →
      e.decodeSound fmt md5 o = (e, [warnUnknownFormat])) ∧
    ((fmt = "" ∨ fmt = "adpcm") →
      (e.decodeSound fmt md5 DecodeOutcome.err).1 = e ∧
      (e.decodeSound fmt md5 DecodeOutcome.err).2 = [warnDecodeFailed] ∧
      (lookupKey e.audioBuffers md5 = none →
        lookupKey (e.decodeSound fmt md5
          DecodeOutcome.err).1.audioBuffers md5 = none ∧
        ActorState.playSound (e.decodeSound fmt md5 DecodeOutcome.err).1 a
          md5 = (a, none, []))) := by
  constructor
  · intro h1 h2
    unfold AudioEngine.decodeSound
    rw [if_neg (by simp [h1, h2])]
  · intro hor
    unfold AudioEngine.decodeSound
    rw [if_pos hor]
    refine ⟨rfl, rfl, ?_⟩
    intro hnone
    exact ⟨hnone, playSound_missing _ _ _ hnone⟩

/-- Witness for decodeSound_failure_paths: a concrete mp3-format asset
is rejected with a warning and no registration, and a failed decode of
a raw-format asset leaves the cache without the entry so playSound
silently ignores the identity. -/
theorem decodeSound_failure_paths_check :
    engFix7.decodeSound "mp3" "m" DecodeOutcome.ok =
      (engFix7, [warnUnknownFormat]) ∧
    lookupKey engFix7.audioBuffers "m" = none ∧
    (engFix7.decodeSound "" "m" DecodeOutcome.err).1 = engFix7 ∧
    (engFix7.decodeSound "" "m" DecodeOutcome.err).2 = [warnDecodeFailed] ∧
    lookupKey (engFix7.decodeSound "" "m"
      DecodeOutcome.err).1.audioBuffers "m" = none ∧
    ActorState.playSound (engFix7.decodeSound "" "m" DecodeOutcome.err).1
      actFix7 "m" = (actFix7, none, []) := by
  refine ⟨(decodeSound_failure_paths engFix7 "mp3" "m" DecodeOutcome.ok
    actFix7).1 (by decide) (by decide), rfl, ?_, ?_, ?_, ?_⟩
  · exact ((decodeSound_failure_paths engFix7 "" "m" DecodeOutcome.err
      actFix7).2 (Or.inl rfl)).1
  · exact ((decodeSound_failure_paths engFix7 "" "m" DecodeOutcome.err
      actFix7).2 (Or.inl rfl)).2.1
  · exact (((decodeSound_failure_paths engFix7 "" "m" DecodeOutcome.err
      actFix7).2 (Or.inl rfl)).2.2 rfl).1
  · exact (((decodeSound_failure_paths engFix7 "" "m" DecodeOutcome.err
      actFix7).2 (Or.inl rfl)).2.2 rfl).2

/-- C8: stopAllSounds stops every player registered in the calling
actor's active registry and additionally runs stopAll on the engine's
shared instrument bank and drum bank, so every in-flight drum sound and
instrument note — whichever actor started it — is halted. -/
theorem stopAllSounds_stops_all (eng : AudioEngine) (a : ActorState) :
    (∀ md5 j, lookupKey a.activeSoundPlayers md5 = some j →
      ((ActorState.stopAllSounds eng a).2.players.getD j
          SoundPlayer.new).isPlaying = false) ∧
    (∀ s ∈ (ActorState.stopAllSounds eng a).1.drumPlayer.drumSounds,
      s.isPlaying = false) ∧
    (∀ nb ∈ (ActorState.stopAllSounds eng a).1.instrumentPlayer.notesPlaying,
      nb = false) := by
  refine ⟨?_, ?_, ?_⟩
  · intro md5 j h
    have hplayers : (ActorState.stopAllSounds eng a).2.players =
        mapFrom
          (fun j pl =>
            if a.activeSoundPlayers.any (fun kv => kv.2 == j) then pl.stop
            else pl) 0 a.players := rfl
    rw [hplayers]
    by_cases hj : j < a.players.length
    · rw [getD_mapFrom _ _ _ _ _ hj]
      simp [any_of_lookupKey _ _ _ h, stop_isPlaying]
    · rw [getD_of_length_le]
      · rfl
      · rw [length_mapFrom]
        omega
  · intro s hs
    have hdrums : (ActorState.stopAllSounds eng a).1.drumPlayer.drumSounds =
        eng.drumPlayer.drumSounds.map SoundPlayer.stop := rfl
    rw [hdrums] at hs
    obtain ⟨x, hx, hfx⟩ := List.mem_map.mp hs
    rw [← hfx]
    exact stop_isPlaying x
  · intro nb hnb
    have hnotes :
        (ActorState.stopAllSounds eng a).1.instrumentPlayer.notesPlaying =
          eng.instrumentPlayer.notesPlaying.map (fun _ => false) := rfl
    rw [hnotes] at hnb
    obtain ⟨x, hx, hfx⟩ := List.mem_map.mp hnb
    exact hfx.symm

/-- Witness for stopAllSounds_stops_all: actor B stops all sounds; its
own registered player, another actor's in-flight drum sound and an
in-flight instrument note are all halted. -/
theorem stopAllSounds_stops_all_check :
    lookupKey actFix8.activeSoundPlayers "s8" = some 0 ∧
    ((ActorState.stopAllSounds engFix8 actFix8).2.players.getD 0
        SoundPlayer.new).isPlaying = false ∧
    (((ActorState.stopAllSounds engFix8
        actFix8).1.drumPlayer.drumSounds.getD 0
        SoundPlayer.new).isPlaying = false) ∧
    ((ActorState.stopAllSounds engFix8
        actFix8).1.instrumentPlayer.notesPlaying.getD 0 true = false) :=
  ⟨rfl,
    (stopAllSounds_stops_all engFix8 actFix8).1 "s8" 0 rfl,
    (stopAllSounds_stops_all engFix8 actFix8).2.1 _ (by decide),
    (stopAllSounds_stops_all engFix8 actFix8).2.2 _ (by decide)⟩

/-- C9 (counterexample): it is not true that after any call to
playSound every player remaining in the registry is playing.  Concrete
trace: an actor plays sX, stopAllSounds stops the player but leaves its
registry entry, and a playSound for an unregistered id returns early
without running the garbage-collection pass — after that call the
registry still maps sX to a player with isPlaying = false. -/
theorem playSound_registry_counterexample :
    lookupKey actFix9c.activeSoundPlayers "sX" = some 0 ∧
    (actFix9c.players.getD 0 SoundPlayer.new).isPlaying = false := by
  decide

/-- C9 (amended): after any call to playSound(md5) for an id whose
buffer is registered in the engine, every player remaining in the
actor's registry has isPlaying = true; in particular, when the buffer
is not yet loaded the freshly created player is appended to the heap
not playing, and the garbage-collection pass of the same call removes
its registration again.  (For an id with no registered buffer the call
returns before the pass and stale non-playing entries may remain.) -/
theorem playSound_registry_playing_after_buffered (eng : AudioEngine)
    (a : ActorState) (md5 : String) (buf : ToneBuffer)
    (hbuf : lookupKey eng.audioBuffers md5 = some buf) :
    (∀ kv ∈ (ActorState.playSound eng a md5).1.activeSoundPlayers,
      ((ActorState.playSound eng a md5).1.players.getD kv.2
          SoundPlayer.new).isPlaying = true) ∧
    (buf.loaded = false →
      (ActorState.playSound eng a md5).1.players.length =
        a.players.length + 1 ∧
      ((ActorState.playSound eng a md5).1.players.getD a.players.length
          SoundPlayer.new).isPlaying = false ∧
      lookupKey (ActorState.playSound eng a md5).1.activeSoundPlayers md5 =
        none) := by
  cases hact : lookupKey a.activeSoundPlayers md5 with
  | some j =>
      rw [playSound_some_active eng a md5 buf j hbuf hact]
      constructor
      · exact playSoundTail_registry_playing _ _ _
      · intro hl
        have h := playSoundTail_unloaded
          { a with players := updateAt a.players j SoundPlayer.stop } buf md5
          hl
        have hlen :
            ({ a with players := updateAt a.players j SoundPlayer.stop } :
              ActorState).players.length = a.players.length :=
          length_updateAt _ _ _
        rw [hlen] at h
        exact h
  | none =>
      rw [playSound_none_active eng a md5 buf hbuf hact]
      exact ⟨playSoundTail_registry_playing _ _ _,
        fun hl => playSoundTail_unloaded a buf md5 hl⟩

/-- Witness for playSound_registry_playing_after_buffered: on the
engine with a registered but unloaded buffer sU, the fresh player is
appended not playing and its registration is gone after the call. -/
theorem playSound_registry_playing_after_buffered_check :
    lookupKey engFix9.audioBuffers "sU" = some (⟨false⟩ : ToneBuffer) ∧
    (ActorState.playSound engFix9 actFix9 "sU").1.players.length =
      actFix9.players.length + 1 ∧
    ((ActorState.playSound engFix9 actFix9 "sU").1.players.getD
        actFix9.players.length SoundPlayer.new).isPlaying = false ∧
    lookupKey (ActorState.playSound engFix9 actFix9
      "sU").1.activeSoundPlayers "sU" = none :=
  ⟨rfl,
    (playSound_registry_playing_after_buffered engFix9 actFix9 "sU" ⟨false⟩
      rfl).2 rfl⟩

/-- C10: clearEffects does not only reset pitch to neutral and pan to
center: it also sets the effects-node gain to 1, the value
setVolume(100) produces, so a volume set earlier with setVolume does
not survive a clearEffects call. -/
theorem clearEffects_resets_volume (a : ActorState) (v : ℚ) :
    a.clearEffects.effectsGain = 1 ∧
    a.clearEffects.panValue = 0 ∧
    a.clearEffects.pitchValue = 0 ∧
    (a.setVolume v).effectsGain = v / 100 ∧
    (a.setVolume 100).effectsGain = 1 ∧
    (a.setVolume v).clearEffects.effectsGain = 1 :=
  ⟨rfl, rfl, rfl, rfl, by norm_num [ActorState.setVolume], rfl⟩

end ScratchAudio
